import Mathlib

/-!
Verification of the Zoomy pan-zoom engine (src/zoomy/zoomy.cpp).

The embedding models the program's floats as exact rationals. The core under
study is the geometry fitter `PutScreenOverCoordinates` (zoomy.cpp lines
172-196) and the per-frame state machine of the main loop in `WinMain`
(zoomy.cpp lines 261-393): arming/advancing the zoom animation while the
space bar is held, speed keys, and the Q/W/E/R corner-edit block.
-/

namespace Zoomy

/-- A rectangle in image-pixel coordinates, field order as in the source's
parameter list (top, left, bottom, right). -/
structure Rect where
  top : ℚ
  left : ℚ
  bottom : ℚ
  right : ℚ
  deriving DecidableEq

/-- Embedding of `PutScreenOverCoordinates` (zoomy.cpp lines 172-196).
`coords_in_dimensions = true` is the Cover mode (contain the screen within
the input dimensions), `false` the Contain mode.  The source mutates the
rectangle through pointers and returns the scaling factor; here the adjusted
rectangle is returned alongside the scale. -/
def PutScreenOverCoordinates (coords_in_dimensions : Bool) (r : Rect)
    (screen_width screen_height : ℚ) : Rect × ℚ :=
  let screen_aspect := screen_width / screen_height
  let width := r.right - r.left
  let height := r.bottom - r.top
  let aspect := width / height
  if (coords_in_dimensions && decide (aspect > screen_aspect))
      || (!coords_in_dimensions && decide (aspect < screen_aspect)) then
    let offset := (width / screen_aspect - height) / 2
    (⟨r.top - offset, r.left, r.bottom + offset, r.right⟩, width / screen_width)
  else
    let offset := (height * screen_aspect - width) / 2
    (⟨r.top, r.left - offset, r.bottom, r.right + offset⟩, height / screen_height)

/-- Session constants: the display mode's dimensions and the loaded image's
dimensions (zoomy.cpp lines 242-245). -/
structure Config where
  screen_width : ℚ
  screen_height : ℚ
  image_width : ℚ
  image_height : ℚ
  deriving DecidableEq

/-- The mutable state of the main loop (zoomy.cpp lines 261-279): the start
and end rectangles, the per-axis rates, the currently displayed viewport
corners, and the two flags. -/
structure State where
  start_x1 : ℚ
  start_y1 : ℚ
  start_x2 : ℚ
  start_y2 : ℚ
  end_x1 : ℚ
  end_y1 : ℚ
  end_x2 : ℚ
  end_y2 : ℚ
  dx1 : ℚ
  dx2 : ℚ
  dy1 : ℚ
  dy2 : ℚ
  left : ℚ
  top : ℚ
  right : ℚ
  bottom : ℚ
  first_loop : Bool
  initialized : Bool
  deriving DecidableEq

/-- The animation duration constant `time = 30.0f` (zoomy.cpp line 271). -/
def time : ℚ := 30

/-- The initial state (zoomy.cpp lines 261-279): start box is the whole
image, end box is the screen, rates derived from them, current corners at
the start box, `first_loop` set and `initialized` clear. -/
def initState (cfg : Config) : State :=
  { start_x1 := 0, start_y1 := 0, start_x2 := cfg.image_width, start_y2 := cfg.image_height
    end_x1 := 0, end_y1 := 0, end_x2 := cfg.screen_width, end_y2 := cfg.screen_height
    dx1 := (0 - 0) / time, dx2 := (cfg.screen_width - cfg.image_width) / time
    dy1 := (0 - 0) / time, dy2 := (cfg.screen_height - cfg.image_height) / time
    left := 0, top := 0, right := cfg.image_width, bottom := cfg.image_height
    first_loop := true, initialized := false }

/-- The per-frame inputs sampled from the platform (key states, mouse
position, elapsed time): space bar, the ten speed keys 1..9,0, the Q/W/E/R
corner-select keys (named sp1/sp2/ep1/ep2 as in zoomy.cpp lines 343-346),
the left mouse button, the cursor position and the elapsed seconds. -/
structure Input where
  space : Bool
  k1 : Bool
  k2 : Bool
  k3 : Bool
  k4 : Bool
  k5 : Bool
  k6 : Bool
  k7 : Bool
  k8 : Bool
  k9 : Bool
  k0 : Bool
  sp1 : Bool
  sp2 : Bool
  ep1 : Bool
  ep2 : Bool
  lbutton : Bool
  ptx : ℚ
  pty : ℚ
  elapsed : ℚ
  deriving DecidableEq

/-- The speed-key chain (zoomy.cpp lines 309-318): the first held key of
1..9,0 multiplies the frame's elapsed time by its band. -/
def speedAdjust (i : Input) (fElapsedTime : ℚ) : ℚ :=
  if i.k1 then fElapsedTime * (3/20)
  else if i.k2 then fElapsedTime * (1/4)
  else if i.k3 then fElapsedTime * (1/2)
  else if i.k4 then fElapsedTime * (3/5)
  else if i.k5 then fElapsedTime * (4/5)
  else if i.k6 then fElapsedTime * (6/5)
  else if i.k7 then fElapsedTime * (3/2)
  else if i.k8 then fElapsedTime * (9/5)
  else if i.k9 then fElapsedTime * 2
  else if i.k0 then fElapsedTime * (5/2)
  else fElapsedTime

/-- The effective time step a frame advances by: elapsed time scaled by the
held speed band. -/
def effDt (i : Input) : ℚ := speedAdjust i i.elapsed

/-- The Contain-mode fit of the stored start rectangle, as arming performs it
(zoomy.cpp line 296: the fitter is called on `&start_y1, &start_x1,
&start_y2, &start_x2`, i.e. on the rectangle with top `start_y1`, left
`start_x1`, bottom `start_y2`, right `start_x2`). -/
def containStart (cfg : Config) (s : State) : Rect :=
  (PutScreenOverCoordinates false ⟨s.start_y1, s.start_x1, s.start_y2, s.start_x2⟩
    cfg.screen_width cfg.screen_height).1

/-- The Contain-mode fit of the stored end rectangle, as arming performs it
(zoomy.cpp line 297). -/
def containEnd (cfg : Config) (s : State) : Rect :=
  (PutScreenOverCoordinates false ⟨s.end_y1, s.end_x1, s.end_y2, s.end_x2⟩
    cfg.screen_width cfg.screen_height).1

/-- The Cover-mode fit of the whole image extent onto the screen, as the edit
block performs it (zoomy.cpp lines 362-366: top=0, left=0,
bottom=image_height, right=image_width, then the fitter in Cover mode). -/
def fullImageFit (cfg : Config) : Rect × ℚ :=
  PutScreenOverCoordinates true ⟨0, 0, cfg.image_height, cfg.image_width⟩
    cfg.screen_width cfg.screen_height

/-- The space-bar block of the main loop body (zoomy.cpp lines 290-325):
when the space bar is held, a not-yet-initialized state is armed by running
the fitter in Contain mode on the stored start and end rectangles IN PLACE
(the source passes `&start_y1` etc. directly), deriving the four rates and
seeding the current corners from the normalized start; then the current
corners advance by rate times the speed-adjusted elapsed time. -/
def spaceStep (cfg : Config) (s : State) (i : Input) : State :=
  if i.space then
    let sA :=
      if !s.initialized then
        let ns := containStart cfg s
        let ne := containEnd cfg s
        { s with initialized := true
                 start_y1 := ns.top, start_x1 := ns.left
                 start_y2 := ns.bottom, start_x2 := ns.right
                 end_y1 := ne.top, end_x1 := ne.left
                 end_y2 := ne.bottom, end_x2 := ne.right
                 dx1 := (ne.left - ns.left) / time
                 dx2 := (ne.right - ns.right) / time
                 dy1 := (ne.top - ns.top) / time
                 dy2 := (ne.bottom - ns.bottom) / time
                 left := ns.left, top := ns.top
                 right := ns.right, bottom := ns.bottom }
      else s
    let dt := effDt i
    { sA with left := sA.left + sA.dx1 * dt
              top := sA.top + sA.dy1 * dt
              right := sA.right + sA.dx2 * dt
              bottom := sA.bottom + sA.dy2 * dt }
  else s

/-- The corner-edit block of the main loop body (zoomy.cpp lines 343-393):
when `first_loop` is set or any of Q/W/E/R is held, both flags reset, the
current corners are overwritten with the Cover fit of the whole image, and,
if the left button is down, each held key's corner is set from the cursor
position through the inverse fit transform (`pt * scaling + origin`). -/
def editStep (cfg : Config) (s1 : State) (i : Input) : State :=
  if s1.first_loop || i.sp1 || i.sp2 || i.ep1 || i.ep2 then
    let fr := (fullImageFit cfg).1
    let scaling := (fullImageFit cfg).2
    let s2 := { s1 with first_loop := false, initialized := false
                        top := fr.top, left := fr.left
                        right := fr.right, bottom := fr.bottom }
    if i.lbutton then
      let s3 := if i.sp1 then
        { s2 with start_x1 := i.ptx * scaling + s2.left
                  start_y1 := i.pty * scaling + s2.top } else s2
      let s4 := if i.sp2 then
        { s3 with start_x2 := i.ptx * scaling + s3.left
                  start_y2 := i.pty * scaling + s3.top } else s3
      let s5 := if i.ep1 then
        { s4 with end_x1 := i.ptx * scaling + s4.left
                  end_y1 := i.pty * scaling + s4.top } else s4
      let s6 := if i.ep2 then
        { s5 with end_x2 := i.ptx * scaling + s5.left
                  end_y2 := i.pty * scaling + s5.top } else s5
      s6
    else s2
  else s1

/-- One iteration of the main loop body (zoomy.cpp lines 282-393), with the
rendering and platform calls elided: the space-bar block runs first, the
corner-edit block second, on the state the space-bar block left. -/
def frame (cfg : Config) (s : State) (i : Input) : State :=
  editStep cfg (spaceStep cfg s i) i

/-- The two fit modes as the spec names them: Cover is the source's
`coords_in_dimensions = true`, Contain is `false` (spec section 4.1). -/
inductive FitMode where
  | Cover : FitMode
  | Contain : FitMode
  deriving DecidableEq

/-- The source encoding of a fit mode as the `coords_in_dimensions` flag. -/
def FitMode.toBool : FitMode → Bool
  | FitMode.Cover => true
  | FitMode.Contain => false

/-- The Geometry Fitter algorithm exactly as the spec's words describe it
(spec section 4.1), written independently of the source embedding so the two
can be compared: compute the two aspect ratios; if "(mode==Cover and
rectAspect > viewportAspect) or (mode==Contain and rectAspect <
viewportAspect)", adjust the vertical extent symmetrically by
offset = (width/viewportAspect - height)/2 and return scale =
width/viewportWidth; otherwise adjust the horizontal extent symmetrically by
offset = (height*viewportAspect - width)/2 and return scale =
height/viewportHeight. -/
def FitSpec (mode : FitMode) (r : Rect) (viewportWidth viewportHeight : ℚ) :
    Rect × ℚ :=
  let viewportAspect := viewportWidth / viewportHeight
  let width := r.right - r.left
  let height := r.bottom - r.top
  let rectAspect := width / height
  if (mode = FitMode.Cover ∧ rectAspect > viewportAspect)
      ∨ (mode = FitMode.Contain ∧ rectAspect < viewportAspect) then
    let offset := (width / viewportAspect - height) / 2
    (⟨r.top - offset, r.left, r.bottom + offset, r.right⟩, width / viewportWidth)
  else
    let offset := (height * viewportAspect - width) / 2
    (⟨r.top, r.left - offset, r.bottom, r.right + offset⟩, height / viewportHeight)

/-- Division that records a division by zero instead of returning a junk
value: the rationals model the source's floats, so a zero denominator stands
for the float's non-finite result. -/
def checkedDiv (a b : ℚ) : Option ℚ :=
  if b = 0 then none else some (a / b)

/-- The fitter of zoomy.cpp lines 172-196 again, with every division whose
denominator is a runtime value routed through `checkedDiv`: the result is
`none` exactly when the source would divide by zero and produce a non-finite
float.  The source itself contains no such guard; this variant only makes
the divisions' well-definedness observable. -/
def PutScreenOverCoordinatesChecked (coords_in_dimensions : Bool) (r : Rect)
    (screen_width screen_height : ℚ) : Option (Rect × ℚ) := do
  let screen_aspect ← checkedDiv screen_width screen_height
  let width := r.right - r.left
  let height := r.bottom - r.top
  let aspect ← checkedDiv width height
  if (coords_in_dimensions && decide (aspect > screen_aspect))
      || (!coords_in_dimensions && decide (aspect < screen_aspect)) then
    let q ← checkedDiv width screen_aspect
    let offset := (q - height) / 2
    let scaling ← checkedDiv width screen_width
    pure (⟨r.top - offset, r.left, r.bottom + offset, r.right⟩, scaling)
  else
    let offset := (height * screen_aspect - width) / 2
    let scaling ← checkedDiv height screen_height
    pure (⟨r.top, r.left - offset, r.bottom, r.right + offset⟩, scaling)

/-- The session of the spec's concrete scenarios: a 1920x1080 screen showing
a 4000x3000 image. -/
def cfg4k3 : Config := ⟨1920, 1080, 4000, 3000⟩

/-- An input frame with nothing held: one second elapsed, cursor at the
origin. -/
def idleInput : Input :=
  { space := false, k1 := false, k2 := false, k3 := false, k4 := false
    k5 := false, k6 := false, k7 := false, k8 := false, k9 := false, k0 := false
    sp1 := false, sp2 := false, ep1 := false, ep2 := false
    lbutton := false, ptx := 0, pty := 0, elapsed := 1 }

/-- An input frame with only the space bar held. -/
def runInput : Input := { idleInput with space := true }

/-- An input frame performing the spec's corner-edit scenario: Q held and the
left button clicked with the cursor at (100, 100). -/
def editStartTL : Input :=
  { idleInput with sp1 := true, lbutton := true, ptx := 100, pty := 100 }

/-- An armed state for the spec's concrete scenario: start box the whole
4000x3000 image and end box the 1920x1080 screen, both already
Contain-normalized for the 16:9 viewport, rates derived with T = 30, and the
current corners at the normalized start. -/
def armedState : State :=
  { start_x1 := 0, start_y1 := 375, start_x2 := 4000, start_y2 := 2625
    end_x1 := 0, end_y1 := 0, end_x2 := 1920, end_y2 := 1080
    dx1 := 0, dx2 := -208/3, dy1 := -25/2, dy2 := -103/2
    left := 0, top := 375, right := 4000, bottom := 2625
    first_loop := false, initialized := true }

end Zoomy

namespace Zoomy

/-! ## Helper lemmas about single frames -/

/-- A frame whose input holds the space bar on an already-armed state (and no
edit key, past the first loop) only advances the four current corners by rate
times the effective time step. -/
lemma frame_armed_eq (cfg : Config) (s : State) (i : Input)
    (hin : s.initialized = true) (hfl : s.first_loop = false)
    (hsp : i.space = true) (h1 : i.sp1 = false) (h2 : i.sp2 = false)
    (h3 : i.ep1 = false) (h4 : i.ep2 = false) :
    frame cfg s i =
      { s with left := s.left + s.dx1 * effDt i
               top := s.top + s.dy1 * effDt i
               right := s.right + s.dx2 * effDt i
               bottom := s.bottom + s.dy2 * effDt i } := by
  simp [frame, spaceStep, editStep, hin, hfl, hsp, h1, h2, h3, h4]

/-- A frame whose input holds the space bar on a disarmed state (and no edit
key, past the first loop) arms: it overwrites the stored start and end
rectangles with their Contain fits, derives the four rates, seeds the current
corners at the normalized start, and advances once. -/
lemma frame_arming_eq (cfg : Config) (s : State) (i : Input)
    (hin : s.initialized = false) (hfl : s.first_loop = false)
    (hsp : i.space = true) (h1 : i.sp1 = false) (h2 : i.sp2 = false)
    (h3 : i.ep1 = false) (h4 : i.ep2 = false) :
    frame cfg s i =
      { s with initialized := true
               start_y1 := (containStart cfg s).top
               start_x1 := (containStart cfg s).left
               start_y2 := (containStart cfg s).bottom
               start_x2 := (containStart cfg s).right
               end_y1 := (containEnd cfg s).top
               end_x1 := (containEnd cfg s).left
               end_y2 := (containEnd cfg s).bottom
               end_x2 := (containEnd cfg s).right
               dx1 := ((containEnd cfg s).left - (containStart cfg s).left) / time
               dx2 := ((containEnd cfg s).right - (containStart cfg s).right) / time
               dy1 := ((containEnd cfg s).top - (containStart cfg s).top) / time
               dy2 := ((containEnd cfg s).bottom - (containStart cfg s).bottom) / time
               left := (containStart cfg s).left
                 + ((containEnd cfg s).left - (containStart cfg s).left) / time * effDt i
               top := (containStart cfg s).top
                 + ((containEnd cfg s).top - (containStart cfg s).top) / time * effDt i
               right := (containStart cfg s).right
                 + ((containEnd cfg s).right - (containStart cfg s).right) / time * effDt i
               bottom := (containStart cfg s).bottom
                 + ((containEnd cfg s).bottom - (containStart cfg s).bottom) / time * effDt i } := by
  simp [frame, spaceStep, editStep, hin, hfl, hsp, h1, h2, h3, h4]

/-- The corner-edit block clears both flags whenever one of the four
corner-select keys is held, regardless of the mouse button. -/
lemma editStep_flags (cfg : Config) (s1 : State) (i : Input)
    (h : i.sp1 = true ∨ i.sp2 = true ∨ i.ep1 = true ∨ i.ep2 = true) :
    (editStep cfg s1 i).initialized = false ∧ (editStep cfg s1 i).first_loop = false := by
  unfold editStep
  rw [if_pos (by rcases h with h | h | h | h <;> simp [h])]
  dsimp only
  split_ifs <;> exact ⟨rfl, rfl⟩

/-- A frame whose input holds one of the four corner-select keys leaves both
flags cleared. -/
lemma frame_edit_flags (cfg : Config) (s : State) (i : Input)
    (h : i.sp1 = true ∨ i.sp2 = true ∨ i.ep1 = true ∨ i.ep2 = true) :
    (frame cfg s i).initialized = false ∧ (frame cfg s i).first_loop = false :=
  editStep_flags cfg (spaceStep cfg s i) i h

/-- The space-bar block never touches the `first_loop` flag. -/
lemma spaceStep_first_loop (cfg : Config) (s : State) (i : Input) :
    (spaceStep cfg s i).first_loop = s.first_loop := by
  unfold spaceStep
  split_ifs <;> dsimp only <;> split <;> rfl

/-- When the corner-edit block runs, the current corners end at the Cover fit
of the whole image, whatever the mouse button state. -/
lemma editStep_resets_view (cfg : Config) (s1 : State) (i : Input)
    (h : (s1.first_loop || i.sp1 || i.sp2 || i.ep1 || i.ep2) = true) :
    (editStep cfg s1 i).top = (fullImageFit cfg).1.top ∧
    (editStep cfg s1 i).left = (fullImageFit cfg).1.left ∧
    (editStep cfg s1 i).right = (fullImageFit cfg).1.right ∧
    (editStep cfg s1 i).bottom = (fullImageFit cfg).1.bottom := by
  unfold editStep
  rw [if_pos h]
  dsimp only
  split_ifs <;> exact ⟨rfl, rfl, rfl, rfl⟩

/-- Armed space-bar frames compose: folding the frame function over a list of
space-held, edit-free inputs advances each current corner by its rate times
the sum of the effective time steps, and changes nothing else. -/
lemma foldl_armed (cfg : Config) (inputs : List Input) : ∀ (s : State),
    s.initialized = true → s.first_loop = false →
    (∀ i ∈ inputs, i.space = true ∧ i.sp1 = false ∧ i.sp2 = false
      ∧ i.ep1 = false ∧ i.ep2 = false) →
    inputs.foldl (frame cfg) s =
      { s with left := s.left + s.dx1 * (inputs.map effDt).sum
               top := s.top + s.dy1 * (inputs.map effDt).sum
               right := s.right + s.dx2 * (inputs.map effDt).sum
               bottom := s.bottom + s.dy2 * (inputs.map effDt).sum } := by
  induction inputs with
  | nil => intro s _ _ _; simp
  | cons i rest ih =>
    intro s hin hfl hall
    obtain ⟨hi, hrest⟩ := List.forall_mem_cons.mp hall
    rw [List.foldl_cons,
      frame_armed_eq cfg s i hin hfl hi.1 hi.2.1 hi.2.2.1 hi.2.2.2.1 hi.2.2.2.2,
      ih { s with left := s.left + s.dx1 * effDt i
                  top := s.top + s.dy1 * effDt i
                  right := s.right + s.dx2 * effDt i
                  bottom := s.bottom + s.dy2 * effDt i } hin hfl hrest]
    simp only [List.map_cons, List.sum_cons, State.mk.injEq, and_true, true_and]
    refine ⟨?_, ?_, ?_, ?_⟩ <;> ring

/-! ## The claims -/

/-- C4: for every rectangle with positive extents and positive viewport
dimensions, the Geometry Fitter behaves as the spec's algorithm paragraph
describes it: the source embedding agrees with `FitSpec`, the function
written from the spec's own words, in both Cover and Contain modes. -/
theorem fit_matches_spec (mode : FitMode) (r : Rect) (vw vh : ℚ)
    (hw : 0 < r.right - r.left) (hh : 0 < r.bottom - r.top)
    (hvw : 0 < vw) (hvh : 0 < vh) :
    PutScreenOverCoordinates mode.toBool r vw vh = FitSpec mode r vw vh := by
  cases mode <;>
    simp only [PutScreenOverCoordinates, FitSpec, FitMode.toBool, Bool.true_and,
      Bool.false_and, Bool.or_false, Bool.false_or, Bool.not_true, Bool.not_false,
      decide_eq_true_eq, true_and, false_and, or_false, false_or, and_true,
      reduceCtorEq, and_false]

/-- Witness for C4 at the 4000x3000 rectangle on the 1920x1080 viewport in
Cover mode. -/
theorem fit_matches_spec_witness :
    PutScreenOverCoordinates (FitMode.toBool FitMode.Cover) ⟨0, 0, 3000, 4000⟩ 1920 1080
      = FitSpec FitMode.Cover ⟨0, 0, 3000, 4000⟩ 1920 1080 :=
  fit_matches_spec FitMode.Cover ⟨0, 0, 3000, 4000⟩ 1920 1080
    (by norm_num) (by norm_num) (by norm_num) (by norm_num)

/-- C6: for every rectangle with positive extents and positive viewport
dimensions, the Geometry Fitter leaves the rectangle's center unchanged, in
both Cover and Contain modes. -/
theorem fit_preserves_center (m : Bool) (r : Rect) (vw vh : ℚ)
    (hw : 0 < r.right - r.left) (hh : 0 < r.bottom - r.top)
    (hvw : 0 < vw) (hvh : 0 < vh) :
    ((PutScreenOverCoordinates m r vw vh).1.left
        + (PutScreenOverCoordinates m r vw vh).1.right) / 2
      = (r.left + r.right) / 2 ∧
    ((PutScreenOverCoordinates m r vw vh).1.top
        + (PutScreenOverCoordinates m r vw vh).1.bottom) / 2
      = (r.top + r.bottom) / 2 := by
  unfold PutScreenOverCoordinates
  dsimp only
  split <;> exact ⟨by ring, by ring⟩

/-- Witness for C6 at the 4000x3000 rectangle on the 1920x1080 viewport in
Cover mode. -/
theorem fit_preserves_center_witness :
    ((PutScreenOverCoordinates true ⟨0, 0, 3000, 4000⟩ 1920 1080).1.left
        + (PutScreenOverCoordinates true ⟨0, 0, 3000, 4000⟩ 1920 1080).1.right) / 2
      = ((⟨0, 0, 3000, 4000⟩ : Rect).left + (⟨0, 0, 3000, 4000⟩ : Rect).right) / 2 ∧
    ((PutScreenOverCoordinates true ⟨0, 0, 3000, 4000⟩ 1920 1080).1.top
        + (PutScreenOverCoordinates true ⟨0, 0, 3000, 4000⟩ 1920 1080).1.bottom) / 2
      = ((⟨0, 0, 3000, 4000⟩ : Rect).top + (⟨0, 0, 3000, 4000⟩ : Rect).bottom) / 2 :=
  fit_preserves_center true ⟨0, 0, 3000, 4000⟩ 1920 1080
    (by norm_num) (by norm_num) (by norm_num) (by norm_num)

/-- C7: for every rectangle whose aspect ratio equals the viewport's aspect
ratio (with positive extents and viewport dimensions), the Geometry Fitter
in either mode leaves all four coordinates unchanged and returns scale
width/viewportWidth, which equals height/viewportHeight. -/
theorem fit_idempotent_matching_aspect (m : Bool) (r : Rect) (vw vh : ℚ)
    (hw : 0 < r.right - r.left) (hh : 0 < r.bottom - r.top)
    (hvw : 0 < vw) (hvh : 0 < vh)
    (hasp : (r.right - r.left) / (r.bottom - r.top) = vw / vh) :
    PutScreenOverCoordinates m r vw vh = (r, (r.right - r.left) / vw) ∧
    (r.right - r.left) / vw = (r.bottom - r.top) / vh := by
  have hh0 : r.bottom - r.top ≠ 0 := ne_of_gt hh
  have hvh0 : vh ≠ 0 := ne_of_gt hvh
  have hvw0 : vw ≠ 0 := ne_of_gt hvw
  have key : (r.right - r.left) * vh = vw * (r.bottom - r.top) :=
    (div_eq_div_iff hh0 hvh0).mp hasp
  have hscale : (r.right - r.left) / vw = (r.bottom - r.top) / vh := by
    rw [div_eq_div_iff hvw0 hvh0]
    linarith [key]
  have hoffset : (r.bottom - r.top) * (vw / vh) - (r.right - r.left) = 0 := by
    field_simp
    linarith [key]
  refine ⟨?_, hscale⟩
  unfold PutScreenOverCoordinates
  dsimp only
  rw [if_neg]
  · have h1 : r.left - ((r.bottom - r.top) * (vw / vh) - (r.right - r.left)) / 2 = r.left := by
      rw [hoffset]; ring
    have h2 : r.right + ((r.bottom - r.top) * (vw / vh) - (r.right - r.left)) / 2 = r.right := by
      rw [hoffset]; ring
    rw [Prod.mk.injEq]
    constructor
    · rw [Rect.mk.injEq]
      exact ⟨rfl, h1, rfl, h2⟩
    · rw [hscale]
  · rw [hasp]
    simp

/-- Witness for C7 at the 1920x1080 rectangle on the 1920x1080 viewport in
Cover mode. -/
theorem fit_idempotent_matching_aspect_witness :
    PutScreenOverCoordinates true ⟨0, 0, 1080, 1920⟩ 1920 1080
      = (⟨0, 0, 1080, 1920⟩,
          ((⟨0, 0, 1080, 1920⟩ : Rect).right - (⟨0, 0, 1080, 1920⟩ : Rect).left) / 1920) ∧
    ((⟨0, 0, 1080, 1920⟩ : Rect).right - (⟨0, 0, 1080, 1920⟩ : Rect).left) / 1920
      = ((⟨0, 0, 1080, 1920⟩ : Rect).bottom - (⟨0, 0, 1080, 1920⟩ : Rect).top) / 1080 :=
  fit_idempotent_matching_aspect true ⟨0, 0, 1080, 1920⟩ 1920 1080
    (by norm_num) (by norm_num) (by norm_num) (by norm_num) (by norm_num)

end Zoomy

namespace Zoomy

/-- C5: from an armed state (current corners at the Contain-normalized start,
rates at (normalized end - normalized start)/T), advancing with any finite
sequence of space-held frames whose effective time steps (elapsed times
scaled by the held speed band) sum to exactly T lands the current rectangle
exactly on the Contain-normalized end rectangle. -/
theorem animator_endpoint_convergence (cfg : Config) (s0 : State)
    (inputs : List Input) (S E ns ne : Rect)
    (hns : ns = (PutScreenOverCoordinates false S cfg.screen_width cfg.screen_height).1)
    (hne : ne = (PutScreenOverCoordinates false E cfg.screen_width cfg.screen_height).1)
    (hinit : s0.initialized = true) (hfl : s0.first_loop = false)
    (hl : s0.left = ns.left) (ht : s0.top = ns.top)
    (hr : s0.right = ns.right) (hb : s0.bottom = ns.bottom)
    (hdx1 : s0.dx1 = (ne.left - ns.left) / time)
    (hdy1 : s0.dy1 = (ne.top - ns.top) / time)
    (hdx2 : s0.dx2 = (ne.right - ns.right) / time)
    (hdy2 : s0.dy2 = (ne.bottom - ns.bottom) / time)
    (hkeys : ∀ i ∈ inputs, i.space = true ∧ i.sp1 = false ∧ i.sp2 = false
      ∧ i.ep1 = false ∧ i.ep2 = false)
    (hsum : (inputs.map effDt).sum = time) :
    (inputs.foldl (frame cfg) s0).left = ne.left ∧
    (inputs.foldl (frame cfg) s0).top = ne.top ∧
    (inputs.foldl (frame cfg) s0).right = ne.right ∧
    (inputs.foldl (frame cfg) s0).bottom = ne.bottom := by
  rw [foldl_armed cfg inputs s0 hinit hfl hkeys]
  dsimp only
  rw [hsum, hl, ht, hr, hb, hdx1, hdy1, hdx2, hdy2]
  unfold time
  refine ⟨?_, ?_, ?_, ?_⟩ <;> ring

/-- Witness for C5: the spec's scenario, two frames of 12 and 18 seconds at
multiplier 1 from the armed state land exactly on the normalized end box. -/
theorem animator_endpoint_convergence_witness :
    ([{ runInput with elapsed := 12 }, { runInput with elapsed := 18 }].foldl
        (frame cfg4k3) armedState).left = 0 ∧
    ([{ runInput with elapsed := 12 }, { runInput with elapsed := 18 }].foldl
        (frame cfg4k3) armedState).top = 0 ∧
    ([{ runInput with elapsed := 12 }, { runInput with elapsed := 18 }].foldl
        (frame cfg4k3) armedState).right = 1920 ∧
    ([{ runInput with elapsed := 12 }, { runInput with elapsed := 18 }].foldl
        (frame cfg4k3) armedState).bottom = 1080 :=
  animator_endpoint_convergence cfg4k3 armedState
    [{ runInput with elapsed := 12 }, { runInput with elapsed := 18 }]
    ⟨0, 0, 3000, 4000⟩ ⟨0, 0, 1080, 1920⟩ ⟨375, 0, 2625, 4000⟩ ⟨0, 0, 1080, 1920⟩
    (by norm_num [PutScreenOverCoordinates, cfg4k3])
    (by norm_num [PutScreenOverCoordinates, cfg4k3])
    rfl rfl rfl rfl rfl rfl
    (by norm_num [armedState, time]) (by norm_num [armedState, time])
    (by norm_num [armedState, time]) (by norm_num [armedState, time])
    (by simp [runInput, idleInput])
    (by norm_num [effDt, speedAdjust, runInput, idleInput, time])

/-- C8: editing any corner (holding a corner-select key) de-arms the
animator, and a subsequent trigger activation derives the rate vector from
the Contain fits of the start and end rectangles as they stand after the
edit frame. -/
theorem edit_rearms_with_new_rates (cfg : Config) (s : State) (i1 i2 : Input)
    (h : i1.sp1 = true ∨ i1.sp2 = true ∨ i1.ep1 = true ∨ i1.ep2 = true)
    (hsp : i2.space = true) (h1 : i2.sp1 = false) (h2 : i2.sp2 = false)
    (h3 : i2.ep1 = false) (h4 : i2.ep2 = false) :
    (frame cfg s i1).initialized = false ∧
    (frame cfg (frame cfg s i1) i2).dx1
      = ((containEnd cfg (frame cfg s i1)).left
          - (containStart cfg (frame cfg s i1)).left) / time ∧
    (frame cfg (frame cfg s i1) i2).dy1
      = ((containEnd cfg (frame cfg s i1)).top
          - (containStart cfg (frame cfg s i1)).top) / time ∧
    (frame cfg (frame cfg s i1) i2).dx2
      = ((containEnd cfg (frame cfg s i1)).right
          - (containStart cfg (frame cfg s i1)).right) / time ∧
    (frame cfg (frame cfg s i1) i2).dy2
      = ((containEnd cfg (frame cfg s i1)).bottom
          - (containStart cfg (frame cfg s i1)).bottom) / time := by
  obtain ⟨hin, hfl⟩ := frame_edit_flags cfg s i1 h
  refine ⟨hin, ?_, ?_, ?_, ?_⟩ <;>
    rw [frame_arming_eq cfg (frame cfg s i1) i2 hin hfl hsp h1 h2 h3 h4]

/-- Witness for C8: an edit frame (Q and click) on the initial state followed
by a space frame re-derives all four rates from the post-edit rectangles. -/
theorem edit_rearms_with_new_rates_witness :
    (frame cfg4k3 (initState cfg4k3) editStartTL).initialized = false ∧
    (frame cfg4k3 (frame cfg4k3 (initState cfg4k3) editStartTL) runInput).dx1
      = ((containEnd cfg4k3 (frame cfg4k3 (initState cfg4k3) editStartTL)).left
          - (containStart cfg4k3 (frame cfg4k3 (initState cfg4k3) editStartTL)).left) / time ∧
    (frame cfg4k3 (frame cfg4k3 (initState cfg4k3) editStartTL) runInput).dy1
      = ((containEnd cfg4k3 (frame cfg4k3 (initState cfg4k3) editStartTL)).top
          - (containStart cfg4k3 (frame cfg4k3 (initState cfg4k3) editStartTL)).top) / time ∧
    (frame cfg4k3 (frame cfg4k3 (initState cfg4k3) editStartTL) runInput).dx2
      = ((containEnd cfg4k3 (frame cfg4k3 (initState cfg4k3) editStartTL)).right
          - (containStart cfg4k3 (frame cfg4k3 (initState cfg4k3) editStartTL)).right) / time ∧
    (frame cfg4k3 (frame cfg4k3 (initState cfg4k3) editStartTL) runInput).dy2
      = ((containEnd cfg4k3 (frame cfg4k3 (initState cfg4k3) editStartTL)).bottom
          - (containStart cfg4k3 (frame cfg4k3 (initState cfg4k3) editStartTL)).bottom) / time :=
  edit_rearms_with_new_rates cfg4k3 (initState cfg4k3) editStartTL runInput
    (Or.inl rfl) rfl rfl rfl rfl rfl

/-- C10: on every frame where a corner-select key is held or the first-loop
flag is set, the current viewport corners are overwritten with the Cover fit
of the full image extent, whatever the mouse button (and space bar) state. -/
theorem edit_frame_resets_view (cfg : Config) (s : State) (i : Input)
    (h : s.first_loop = true ∨ i.sp1 = true ∨ i.sp2 = true
      ∨ i.ep1 = true ∨ i.ep2 = true) :
    (frame cfg s i).top = (fullImageFit cfg).1.top ∧
    (frame cfg s i).left = (fullImageFit cfg).1.left ∧
    (frame cfg s i).right = (fullImageFit cfg).1.right ∧
    (frame cfg s i).bottom = (fullImageFit cfg).1.bottom := by
  apply editStep_resets_view
  rw [spaceStep_first_loop]
  rcases h with h | h | h | h | h <;> simp [h]

/-- Witness for C10: the first frame of the session with nothing held (no
mouse button) resets the view to the Cover fit of the whole image. -/
theorem edit_frame_resets_view_witness :
    (frame cfg4k3 (initState cfg4k3) idleInput).top = (fullImageFit cfg4k3).1.top ∧
    (frame cfg4k3 (initState cfg4k3) idleInput).left = (fullImageFit cfg4k3).1.left ∧
    (frame cfg4k3 (initState cfg4k3) idleInput).right = (fullImageFit cfg4k3).1.right ∧
    (frame cfg4k3 (initState cfg4k3) idleInput).bottom = (fullImageFit cfg4k3).1.bottom :=
  edit_frame_resets_view cfg4k3 (initState cfg4k3) idleInput (Or.inl rfl)

end Zoomy

namespace Zoomy

/-- Counterexample to C1 as stated: a session whose first frame clears the
first-loop flag, whose second frame holds the space bar (arming the
animator), and whose third frame releases it.  After the release frame the
armed flag is still true, where the claim says the release resets it to
false. -/
theorem release_does_not_disarm_cex :
    runInput.space = true ∧ idleInput.space = false ∧
    (frame cfg4k3 (frame cfg4k3 (frame cfg4k3 (initState cfg4k3) idleInput)
      runInput) idleInput).initialized = true := by
  refine ⟨rfl, rfl, ?_⟩
  norm_num [frame, spaceStep, editStep, initState, containStart, containEnd,
    fullImageFit, PutScreenOverCoordinates, effDt, speedAdjust, time, cfg4k3,
    runInput, idleInput]

/-- C1 as amended: releasing the run trigger changes nothing at all - the
armed flag keeps its value (so a later press resumes from the paused
position rather than replaying from the start) and the current rectangle
retains its last value; the armed flag is cleared only by the corner-edit
block (a corner-select key held, or the first frame). -/
theorem release_frame_is_identity (cfg : Config) (s : State) (i : Input)
    (hsp : i.space = false) (h1 : i.sp1 = false) (h2 : i.sp2 = false)
    (h3 : i.ep1 = false) (h4 : i.ep2 = false) (hfl : s.first_loop = false) :
    frame cfg s i = s := by
  simp [frame, spaceStep, editStep, hsp, h1, h2, h3, h4, hfl]

/-- Witness for the amended C1: a release frame on the armed scenario state
is the identity. -/
theorem release_frame_is_identity_witness :
    frame cfg4k3 armedState idleInput = armedState :=
  release_frame_is_identity cfg4k3 armedState idleInput rfl rfl rfl rfl rfl rfl

/-- Counterexample to C2 as stated: activating the trigger on the initial
4000x3000-image session changes the stored start rectangle's top coordinate
from 0 to 375 - the stored rectangles are NOT left unchanged by trigger
activation. -/
theorem arming_mutates_start_cex :
    (initState cfg4k3).start_y1 = 0 ∧
    (frame cfg4k3 (initState cfg4k3) runInput).start_y1 = 375 := by
  constructor
  · norm_num [initState, cfg4k3, time]
  · norm_num [frame, spaceStep, editStep, initState, containStart, containEnd,
      fullImageFit, PutScreenOverCoordinates, effDt, speedAdjust, time, cfg4k3,
      runInput, idleInput]

/-- C2 as amended: arming the animator runs the Geometry Fitter in Contain
mode directly on the stored start and end rectangles, overwriting them in
place with their normalized versions (the source passes pointers to the
stored scalars, not copies). -/
theorem arming_normalizes_stored_rects (cfg : Config) (s : State) (i : Input)
    (hin : s.initialized = false) (hfl : s.first_loop = false)
    (hsp : i.space = true) (h1 : i.sp1 = false) (h2 : i.sp2 = false)
    (h3 : i.ep1 = false) (h4 : i.ep2 = false) :
    (frame cfg s i).start_x1 = (containStart cfg s).left ∧
    (frame cfg s i).start_y1 = (containStart cfg s).top ∧
    (frame cfg s i).start_x2 = (containStart cfg s).right ∧
    (frame cfg s i).start_y2 = (containStart cfg s).bottom ∧
    (frame cfg s i).end_x1 = (containEnd cfg s).left ∧
    (frame cfg s i).end_y1 = (containEnd cfg s).top ∧
    (frame cfg s i).end_x2 = (containEnd cfg s).right ∧
    (frame cfg s i).end_y2 = (containEnd cfg s).bottom := by
  rw [frame_arming_eq cfg s i hin hfl hsp h1 h2 h3 h4]
  exact ⟨rfl, rfl, rfl, rfl, rfl, rfl, rfl, rfl⟩

/-- Witness for the amended C2: arming from the (past-first-loop) initial
state overwrites all eight stored corner scalars with the Contain fits. -/
theorem arming_normalizes_stored_rects_witness :
    (frame cfg4k3 { initState cfg4k3 with first_loop := false } runInput).start_x1
      = (containStart cfg4k3 { initState cfg4k3 with first_loop := false }).left ∧
    (frame cfg4k3 { initState cfg4k3 with first_loop := false } runInput).start_y1
      = (containStart cfg4k3 { initState cfg4k3 with first_loop := false }).top ∧
    (frame cfg4k3 { initState cfg4k3 with first_loop := false } runInput).start_x2
      = (containStart cfg4k3 { initState cfg4k3 with first_loop := false }).right ∧
    (frame cfg4k3 { initState cfg4k3 with first_loop := false } runInput).start_y2
      = (containStart cfg4k3 { initState cfg4k3 with first_loop := false }).bottom ∧
    (frame cfg4k3 { initState cfg4k3 with first_loop := false } runInput).end_x1
      = (containEnd cfg4k3 { initState cfg4k3 with first_loop := false }).left ∧
    (frame cfg4k3 { initState cfg4k3 with first_loop := false } runInput).end_y1
      = (containEnd cfg4k3 { initState cfg4k3 with first_loop := false }).top ∧
    (frame cfg4k3 { initState cfg4k3 with first_loop := false } runInput).end_x2
      = (containEnd cfg4k3 { initState cfg4k3 with first_loop := false }).right ∧
    (frame cfg4k3 { initState cfg4k3 with first_loop := false } runInput).end_y2
      = (containEnd cfg4k3 { initState cfg4k3 with first_loop := false }).bottom :=
  arming_normalizes_stored_rects cfg4k3 _ runInput rfl rfl rfl rfl rfl rfl rfl

/-- Counterexample to C3 as stated: the Cover fit of the full 4000x3000
image onto the 1920x1080 viewport has scale 25/9 = 2.778 (not 2.083, and
off by more than any float tolerance) and origin left -2000/3 (not 0), so
the Q-click at (100,100) stores start left -3500/9 = -388.9 and start top
2500/9 = 277.8, far from the claimed 208.3. -/
theorem cover_fit_scenario_cex :
    (fullImageFit cfg4k3).2 = 25/9 ∧
    (fullImageFit cfg4k3).1.left = -2000/3 ∧
    (25/9 : ℚ) > 2083/1000 + 1/2 ∧
    (frame cfg4k3 (initState cfg4k3) editStartTL).start_x1 = -3500/9 ∧
    (frame cfg4k3 (initState cfg4k3) editStartTL).start_y1 = 2500/9 ∧
    (-3500/9 : ℚ) < 2083/10 - 100 ∧ (2500/9 : ℚ) > 2083/10 + 50 := by
  refine ⟨?_, ?_, by norm_num, ?_, ?_, by norm_num, by norm_num⟩ <;>
    norm_num [frame, spaceStep, editStep, initState, containStart, containEnd,
      fullImageFit, PutScreenOverCoordinates, effDt, speedAdjust, time, cfg4k3,
      editStartTL, idleInput]

/-- C3 as amended: the 4:3 image is more vertical than the 16:9 viewport, so
the Cover fit of (0,0,4000,3000) on 1920x1080 takes the horizontal-expansion
branch: scale = 3000/1080 = 25/9 = 2.778 and adjusted origin (left, top) =
(-2000/3, 0), so the Q-click at pointer (100,100) yields start.left =
100*(25/9) - 2000/3 = -3500/9 = -388.9 and start.top = 100*(25/9) + 0 =
2500/9 = 277.8. -/
theorem cover_fit_scenario_values :
    (fullImageFit cfg4k3).2 = 25/9 ∧
    (fullImageFit cfg4k3).1.top = 0 ∧
    (fullImageFit cfg4k3).1.left = -2000/3 ∧
    (frame cfg4k3 (initState cfg4k3) editStartTL).start_x1 = -3500/9 ∧
    (frame cfg4k3 (initState cfg4k3) editStartTL).start_y1 = 2500/9 := by
  refine ⟨?_, ?_, ?_, ?_, ?_⟩ <;>
    norm_num [frame, spaceStep, editStep, initState, containStart, containEnd,
      fullImageFit, PutScreenOverCoordinates, effDt, speedAdjust, time, cfg4k3,
      editStartTL, idleInput]

/-- Counterexample to C9 as stated: a zero-width rectangle with positive
height (left = right = 50, top = 0, bottom = 100) put through the fitter in
Contain mode on a healthy 1920x1080 viewport performs NO division by zero
(its aspect is 0/100 = 0) and produces perfectly finite results - the
collapsed rectangle (50,50,50,50) with scale 0. -/
theorem zero_width_finite_cex :
    ((⟨0, 50, 100, 50⟩ : Rect).right - (⟨0, 50, 100, 50⟩ : Rect).left = 0) ∧
    PutScreenOverCoordinatesChecked false ⟨0, 50, 100, 50⟩ 1920 1080
      = some (⟨50, 50, 50, 50⟩, 0) := by
  constructor
  · norm_num
  · norm_num [PutScreenOverCoordinatesChecked, checkedDiv]

/-- C9 as amended: the fitter contains no validation or guard; a rectangle
with zero HEIGHT always causes a division by zero (width/height), as does a
viewport with zero HEIGHT (viewport aspect), while positive extents and
positive viewport dimensions guarantee every division is well-defined and
the checked fitter agrees with the unchecked one.  (A zero-width rectangle
or zero-width viewport does not by itself force a division by zero - see the
counterexample.) -/
theorem fit_division_guards (m : Bool) (r : Rect) (vw vh : ℚ) :
    (r.bottom - r.top = 0 → PutScreenOverCoordinatesChecked m r vw vh = none) ∧
    (vh = 0 → PutScreenOverCoordinatesChecked m r vw vh = none) ∧
    (0 < r.right - r.left → 0 < r.bottom - r.top → 0 < vw → 0 < vh →
      PutScreenOverCoordinatesChecked m r vw vh
        = some (PutScreenOverCoordinates m r vw vh)) := by
  refine ⟨?_, ?_, ?_⟩
  · intro h
    by_cases hvh : vh = 0 <;>
      simp [PutScreenOverCoordinatesChecked, checkedDiv, hvh, h]
  · intro h
    simp [PutScreenOverCoordinatesChecked, checkedDiv, h]
  · intro hw hh hvw hvh
    have h1 : vh ≠ 0 := ne_of_gt hvh
    have h2 : r.bottom - r.top ≠ 0 := ne_of_gt hh
    have h3 : vw ≠ 0 := ne_of_gt hvw
    have h4 : vw / vh ≠ 0 := div_ne_zero h3 h1
    simp only [PutScreenOverCoordinatesChecked, PutScreenOverCoordinates,
      checkedDiv, if_neg h1, if_neg h2, Option.bind_eq_bind, Option.some_bind]
    split <;> simp [if_neg h4, if_neg h3]

/-- Witness for the amended C9: a zero-height rectangle makes the checked
fitter report a division by zero, and on the healthy full-image scenario the
checked fitter returns exactly the unchecked fitter's result. -/
theorem fit_division_guards_witness :
    PutScreenOverCoordinatesChecked true ⟨0, 0, 0, 4000⟩ 1920 1080 = none ∧
    PutScreenOverCoordinatesChecked false ⟨0, 0, 3000, 4000⟩ 1920 1080
      = some (PutScreenOverCoordinates false ⟨0, 0, 3000, 4000⟩ 1920 1080) :=
  ⟨(fit_division_guards true ⟨0, 0, 0, 4000⟩ 1920 1080).1 (by norm_num),
   (fit_division_guards false ⟨0, 0, 3000, 4000⟩ 1920 1080).2.2
     (by norm_num) (by norm_num) (by norm_num) (by norm_num)⟩

end Zoomy
